import Mathlib

/-!
Verification of the SMB-to-HTTP gateway (`src/app.py`) against its
natural-language specification.

The development shallowly embeds the parts of `app.py` the claims are
about:

* `full_smb_path` — the path normalizer `_full_smb_path` (spec §4.1,
  PathResolver), with the configured `share_path_prefix = "/"`.
* `get_smb_connection` — the connection lifecycle manager (spec §4.2,
  ConnectionManager): health probe, close-and-reconnect-once, error
  propagation.  Probe and connect outcomes are inputs, since they are
  decided by the remote server.
* the remote share is modelled as a map `Store` from (share name, full
  path) to an entry (file with byte contents, or directory); the pysmb
  primitives `storeFile`, `retrieveFile`, `createDirectory` act on it.
* the seven operation handlers, as far as the claims need them:
  `list_files`, `create_file_or_directory`, `get_file`, `copy_file`,
  `move_file`, `delete_file`.  Fallible delete primitives are passed in
  as `Except` outcomes, because the handlers catch any exception from
  them and only their success/failure (with a cause) matters.

Python strings are modelled as `List Char`, bytes as `List Nat`.
-/

set_option autoImplicit false

namespace SMBToAPI

/-! ### PathResolver: `_full_smb_path` (app.py lines 123-136) -/

/-- `SMB_CONFIG["share_path_prefix"]`, hardcoded to `"/"` in `app.py`. -/
def share_root : List Char := ['/']

/-- Python `s.lstrip("/")`: drop all leading slash characters. -/
def lstripSlash (s : List Char) : List Char :=
  s.dropWhile (fun c => c = '/')

/-- Python `s.rstrip("/")`: drop all trailing slash characters. -/
def rstripSlash (s : List Char) : List Char :=
  (s.reverse.dropWhile (fun c => c = '/')).reverse

/-- Embedding of `_full_smb_path`: if the relative path is non-empty
(Python truthiness), strip leading slashes; then, since the configured
share-root `share_root` is a non-empty string, produce
`share_root.rstrip("/") + "/" + relative_path`. -/
def full_smb_path (relative_path : List Char) : List Char :=
  let rp := if relative_path = [] then [] else lstripSlash relative_path
  if share_root = [] then rp
  else rstripSlash share_root ++ '/' :: rp

theorem dropWhile_self_idem (q : Char → Bool) (l : List Char) :
    (l.dropWhile q).dropWhile q = l.dropWhile q := by
  induction l with
  | nil => rfl
  | cons a t ih =>
    by_cases h : q a
    · simp [List.dropWhile_cons, h, ih]
    · simp [List.dropWhile_cons, h]

theorem lstripSlash_idem (p : List Char) :
    lstripSlash (lstripSlash p) = lstripSlash p :=
  dropWhile_self_idem _ p

theorem full_smb_path_eq (p : List Char) :
    full_smb_path p = '/' :: lstripSlash p := by
  by_cases h : p = []
  · subst h; rfl
  · simp [full_smb_path, h, share_root, rstripSlash]

theorem lstripSlash_slash_cons (p : List Char) :
    lstripSlash ('/' :: p) = lstripSlash p := by
  simp [lstripSlash, List.dropWhile_cons]

/-- C5: PathResolver's normalization is idempotent: for every input
string `p`, `resolve (resolve p) = resolve p`, where `resolve` is
`_full_smb_path` with the configured share-root `"/"`. -/
theorem full_smb_path_idem (p : List Char) :
    full_smb_path (full_smb_path p) = full_smb_path p := by
  rw [full_smb_path_eq p, full_smb_path_eq ('/' :: lstripSlash p),
    lstripSlash_slash_cons, lstripSlash_idem]

/-- C8: resolving the empty path and resolving `"/"` both yield the
share root `"/"` (the configured share-root path). -/
theorem full_smb_path_empty_and_slash :
    full_smb_path [] = full_smb_path ['/']
      ∧ full_smb_path [] = share_root := by
  constructor <;> rfl

/-! ### ConnectionManager: `get_smb_connection` (app.py lines 54-120)

The global `SMB_CONNECTION` is `Option Nat` (a session handle, or
`none` = Absent).  The health probe's outcome and the single connect
attempt's outcome are inputs: they are decided by the remote server.
The function returns the call's outcome, the final global state, and a
trace of the side-effecting steps it performed, in order. -/

/-- Outcome of the echo health probe `SMB_CONNECTION.echo(b"ping_test_echo",
timeout=5)`: the echoed payload matched byte-for-byte, it mismatched, the
probe raised `OperationFailure`, or it raised any other exception
(covering timeouts). -/
inductive ProbeOutcome where
  | echoMatch
  | echoMismatch
  | opFailure (e : Nat)
  | otherFailure (e : Nat)
deriving DecidableEq

/-- Whether the probe's outcome is one of the three failure shapes
(mismatch, `OperationFailure`, other exception / timeout). -/
def probeFailed : ProbeOutcome → Bool
  | .echoMatch => false
  | .echoMismatch => true
  | .opFailure _ => true
  | .otherFailure _ => true

/-- Outcome of the single transport connect attempt
(`SMBConnection(...)` + `conn.connect(...)`): a new session handle, or
the exception it raised. -/
inductive ConnectOutcome where
  | ok (s : Nat)
  | err (e : Nat)
deriving DecidableEq

/-- What `get_smb_connection` returns to its caller: a usable session,
or the propagated connect failure (`ConnectionError` in the spec's
taxonomy — the code re-raises the connect exception). -/
inductive AcquireOutcome where
  | Connected (s : Nat)
  | ConnectionError (e : Nat)
deriving DecidableEq

/-- Observable steps of an `acquire()`-then-operate call, in order. -/
inductive Event where
  | probe
  | closeSession
  | connectAttempt
  | primitiveCall
deriving DecidableEq

structure AcquireResult where
  result : AcquireOutcome
  state : Option Nat
  events : List Event
deriving DecidableEq

/-- The connect block of `get_smb_connection` (app.py lines 94-120):
construct and connect a new session; on success install it in the
global and return it, on failure log and re-raise (the global is left
as it was — which at this point is always `none`). -/
def attemptConnect (c : ConnectOutcome) (evs : List Event) : AcquireResult :=
  match c with
  | .ok s => ⟨.Connected s, some s, evs ++ [.connectAttempt]⟩
  | .err e => ⟨.ConnectionError e, none, evs ++ [.connectAttempt]⟩

/-- Embedding of `get_smb_connection`: if a session is installed, probe
it; on a matching echo reuse it; on mismatch, `OperationFailure` or any
other exception, close it, set the global to `None` (Absent), and fall
through to the single connect attempt.  If no session is installed,
go straight to the connect attempt. -/
def get_smb_connection (st : Option Nat) (p : ProbeOutcome)
    (c : ConnectOutcome) : AcquireResult :=
  match st with
  | none => attemptConnect c []
  | some s =>
    match p with
    | .echoMatch => ⟨.Connected s, some s, [.probe]⟩
    | .echoMismatch => attemptConnect c [.probe, .closeSession]
    | .opFailure _ => attemptConnect c [.probe, .closeSession]
    | .otherFailure _ => attemptConnect c [.probe, .closeSession]

/-- The result `get_smb_connection` hands back when control reaches the
connect block: exactly the single connect attempt's outcome. -/
def connectResult (c : ConnectOutcome) : AcquireOutcome :=
  match c with
  | .ok s => .Connected s
  | .err e => .ConnectionError e

/-- Event trace of a handler: `conn = get_smb_connection()` inside the
`try:` block, followed by the handler's primitive calls — which run only
when acquire returned a session (on a raise, control jumps to the
`except` block and no primitive is called). -/
def runWithConnection (st : Option Nat) (p : ProbeOutcome)
    (c : ConnectOutcome) (prim : List Event) : List Event :=
  match get_smb_connection st p c with
  | ⟨.Connected _, _, evs⟩ => evs ++ prim
  | ⟨.ConnectionError _, _, evs⟩ => evs

/-- The primitive calls a handler performs after a successful acquire
(and none after a failed one). -/
def acquireTail (c : ConnectOutcome) (prim : List Event) : List Event :=
  match c with
  | .ok _ => prim
  | .err _ => []

/-- C1: on an `acquire()` whose health probe fails (mismatched echo,
probe-level `OperationFailure`, or any other fault such as a timeout),
the manager closes the session, transitions to Absent, and attempts
Connect exactly once before any primitive call runs; a failure of that
single connect attempt propagates as the call's outcome
(`ConnectionError`), with no further retry. -/
theorem acquire_probe_failure_single_reconnect (s : Nat) (p : ProbeOutcome)
    (c : ConnectOutcome) (prim : List Event)
    (hp : probeFailed p = true) (hprim : Event.connectAttempt ∉ prim) :
    runWithConnection (some s) p c prim
        = [Event.probe, Event.closeSession, Event.connectAttempt]
            ++ acquireTail c prim
      ∧ (runWithConnection (some s) p c prim).count Event.connectAttempt = 1
      ∧ (get_smb_connection (some s) p c).result = connectResult c := by
  have hcount : prim.count Event.connectAttempt = 0 :=
    List.count_eq_zero.mpr hprim
  cases p with
  | echoMatch => simp [probeFailed] at hp
  | echoMismatch =>
    cases c <;>
      simp [runWithConnection, get_smb_connection, attemptConnect,
        acquireTail, connectResult, List.count_append, hcount,
        List.count_cons, List.count_nil]
  | opFailure e =>
    cases c <;>
      simp [runWithConnection, get_smb_connection, attemptConnect,
        acquireTail, connectResult, List.count_append, hcount,
        List.count_cons, List.count_nil]
  | otherFailure e =>
    cases c <;>
      simp [runWithConnection, get_smb_connection, attemptConnect,
        acquireTail, connectResult, List.count_append, hcount,
        List.count_cons, List.count_nil]

/-- Witness for C1 at a concrete input: a live session `7` whose probe
raises `OperationFailure 3` and whose reconnect attempt fails with
exception `5`: the trace is probe, close, a single connect attempt, no
primitive call, and the outcome is the propagated `ConnectionError 5`. -/
theorem acquire_probe_failure_single_reconnect_witness :
    runWithConnection (some 7) (.opFailure 3) (.err 5) [Event.primitiveCall]
        = [Event.probe, Event.closeSession, Event.connectAttempt]
            ++ acquireTail (.err 5) [Event.primitiveCall]
      ∧ (runWithConnection (some 7) (.opFailure 3) (.err 5)
          [Event.primitiveCall]).count Event.connectAttempt = 1
      ∧ (get_smb_connection (some 7) (.opFailure 3) (.err 5)).result
          = connectResult (.err 5) :=
  acquire_probe_failure_single_reconnect 7 (.opFailure 3) (.err 5)
    [Event.primitiveCall] (by decide) (by decide)

/-- C10: whenever `get_smb_connection` raises (its outcome is a
`ConnectionError`), the global state afterwards is Absent
(`SMB_CONNECTION is None`): neither a failed health probe nor a failed
connect leaves a stale session handle installed for the next caller. -/
theorem acquire_error_state_absent (st : Option Nat) (p : ProbeOutcome)
    (c : ConnectOutcome) (e : Nat)
    (h : (get_smb_connection st p c).result = .ConnectionError e) :
    (get_smb_connection st p c).state = none := by
  cases st <;> cases p <;> cases c <;>
    simp_all [get_smb_connection, attemptConnect]

/-- Witness for C10 at a concrete input: a live session `2` whose probe
reports a mismatched echo and whose reconnect fails with exception `9`:
the call's outcome is `ConnectionError 9` and the global is `none`. -/
theorem acquire_error_state_absent_witness :
    (get_smb_connection (some 2) .echoMismatch (.err 9)).result
        = .ConnectionError 9
      ∧ (get_smb_connection (some 2) .echoMismatch (.err 9)).state = none :=
  ⟨by decide, acquire_error_state_absent (some 2) .echoMismatch (.err 9) 9
    (by decide)⟩

/-! ### The remote share, and the pysmb primitives the handlers use

The remote store maps a (share name, full path) pair to an entry: a
file with its byte contents, or a directory.  `storeFile` writes the
full contents of a file (creating or replacing it), `retrieveFile`
reads a file's full contents (and fails, i.e. returns `none`, if no
file is there), `createDirectory` creates a directory, `removeEntry`
is the effect of a successful delete primitive. -/

inductive Entry where
  | file (content : List Nat)
  | dir
deriving DecidableEq

def Store : Type := String → List Char → Option Entry

def storeFile (st : Store) (share : String) (path : List Char)
    (content : List Nat) : Store :=
  fun sh p => if sh = share ∧ p = path then some (.file content) else st sh p

def retrieveFile (st : Store) (share : String) (path : List Char) :
    Option (List Nat) :=
  match st share path with
  | some (.file content) => some content
  | _ => none

def createDirectory (st : Store) (share : String) (path : List Char) :
    Store :=
  fun sh p => if sh = share ∧ p = path then some .dir else st sh p

def removeEntry (st : Store) (share : String) (path : List Char) : Store :=
  fun sh p => if sh = share ∧ p = path then none else st sh p

/-! ### `create_file_or_directory` (app.py lines 191-230) and
`get_file` (app.py lines 233-269) -/

/-- Embedding of the `/create` handler's core: resolve the path; if
`isDir` create a directory there, else write the request body `content`
as the full contents of a new or replaced file there. -/
def create_file_or_directory (st : Store) (share_name : String)
    (path : List Char) (is_dir : Bool) (content : List Nat) : Store :=
  if is_dir then createDirectory st share_name (full_smb_path path)
  else storeFile st share_name (full_smb_path path) content

/-- Embedding of the `/get` handler's core: resolve the path and read
the file's full contents into memory (`retrieveFile` into a buffer,
then `getvalue()`).  `none` models the primitive raising. -/
def get_file (st : Store) (share_name : String) (path : List Char) :
    Option (List Nat) :=
  retrieveFile st share_name (full_smb_path path)

/-- C6: Create(path, content=B) followed by Get(path) on the same path
returns exactly the byte sequence B, for any B including the empty
sequence, against the modelled remote store. -/
theorem create_get_roundtrip (st : Store) (share_name : String)
    (path : List Char) (B : List Nat) :
    get_file (create_file_or_directory st share_name path false B)
      share_name path = some B := by
  simp [get_file, create_file_or_directory, storeFile, retrieveFile]

/-! ### `copy_file` (app.py lines 309-350) -/

structure CopyResult where
  ok : Bool
  store : Store

/-- Embedding of the `/copy` handler's core: read the source fully into
memory; only if that succeeds, write the buffer to the destination.  A
fault while reading (modelled as `retrieveFile` returning `none`) jumps
to the `except` block: the handler reports failure and no write ever
happens. -/
def copy_file (st : Store) (share_name : String) (src dst : List Char) :
    CopyResult :=
  match retrieveFile st share_name (full_smb_path src) with
  | none => ⟨false, st⟩
  | some content =>
      ⟨true, storeFile st share_name (full_smb_path dst) content⟩

/-- C9: Copy reads the source fully and only then writes the
destination; in every execution in which the read step faults (after
acquire, before any write), the destination is never written — the
store is exactly the pre-state, so only the source remains, intact. -/
theorem copy_read_fault_writes_nothing (st : Store) (share_name : String)
    (src dst : List Char)
    (h : retrieveFile st share_name (full_smb_path src) = none) :
    (copy_file st share_name src dst).ok = false
      ∧ (copy_file st share_name src dst).store = st := by
  simp [copy_file, h]

/-- Witness for C9 at a concrete input: copying `"a"` to `"b"` on an
empty share faults during the read and leaves the (empty) store
untouched. -/
theorem copy_read_fault_writes_nothing_witness :
    (copy_file (fun _ _ => none) "public" ['a'] ['b']).ok = false
      ∧ (copy_file (fun _ _ => none) "public" ['a'] ['b']).store
          = fun _ _ => none :=
  copy_read_fault_writes_nothing (fun _ _ => none) "public" ['a'] ['b'] rfl

/-! ### `delete_file` (app.py lines 422-477): the tolerant delete

The two delete primitives (`conn.deleteFiles`, `conn.deleteDirectory`)
can each raise an arbitrary exception decided by the server; the
handler catches any exception from them.  They are therefore modelled
as `Except` outcomes passed in (error payload = the exception), and the
handler's fault composition is what is embedded.  A successful delete
removes the entry from the store. -/

/-- Which delete primitives the handler actually invoked, in order. -/
inductive DelEvent where
  | fileDelete
  | dirDelete
deriving DecidableEq

/-- Outcome of the tolerant delete, in the spec's taxonomy: success, or
the `FileNotFoundError` the code raises carrying both the file-delete
cause and the directory-delete cause. -/
inductive DeleteResult where
  | Success
  | CompositeDeleteFailure (fileErr dirErr : Nat)
deriving DecidableEq

structure DeleteRun where
  result : DeleteResult
  store : Store
  events : List DelEvent

/-- Embedding of the `/delete` handler's core: try `deleteFiles` on the
resolved path; on any fault from it, try `deleteDirectory` as fallback;
if that also faults, raise carrying both causes. -/
def delete_file (st : Store) (share_name : String) (path : List Char)
    (fileDel dirDel : Except Nat Unit) : DeleteRun :=
  match fileDel with
  | .ok _ =>
      ⟨.Success, removeEntry st share_name (full_smb_path path),
        [.fileDelete]⟩
  | .error fe =>
    match dirDel with
    | .ok _ =>
        ⟨.Success, removeEntry st share_name (full_smb_path path),
          [.fileDelete, .dirDelete]⟩
    | .error de =>
        ⟨.CompositeDeleteFailure fe de, st, [.fileDelete, .dirDelete]⟩

/-- The outcome the tolerant delete must produce, stated from the
primitive outcomes alone: a composite failure carrying both causes
exactly when both primitives fail, success otherwise. -/
def compositeSpec (fileDel dirDel : Except Nat Unit) : DeleteResult :=
  match fileDel, dirDel with
  | .error fe, .error de => .CompositeDeleteFailure fe de
  | _, _ => .Success

/-- The primitives the tolerant delete must invoke: the file delete
always and first; the directory delete exactly when the file delete
faulted. -/
def deleteTraceSpec (fileDel : Except Nat Unit) : List DelEvent :=
  match fileDel with
  | .ok _ => [.fileDelete]
  | .error _ => [.fileDelete, .dirDelete]

/-- C2: every Delete attempts the file-delete primitive first; on any
fault from it the directory-delete primitive is attempted as fallback;
and the operation raises a `CompositeDeleteFailure` carrying both
underlying causes if and only if both primitives fail. -/
theorem delete_tolerant_fallback (st : Store) (share_name : String)
    (path : List Char) (fileDel dirDel : Except Nat Unit) :
    (delete_file st share_name path fileDel dirDel).events
        = deleteTraceSpec fileDel
      ∧ (delete_file st share_name path fileDel dirDel).events.head?
          = some .fileDelete
      ∧ (delete_file st share_name path fileDel dirDel).result
          = compositeSpec fileDel dirDel := by
  cases fileDel <;> cases dirDel <;>
    simp [delete_file, deleteTraceSpec, compositeSpec]

/-! ### `move_file` (app.py lines 353-419) -/

/-- Outcome of a Move, in the spec's taxonomy.  `ReadFault` is the copy
step faulting while reading the source; `PartialMoveFailure` is the
`IOError` the code raises after both deletes of the source fail — its
message names the destination the file was successfully moved to and
carries both delete causes. -/
inductive MoveStatus where
  | Success
  | ReadFault
  | PartialMoveFailure (movedTo : List Char) (fileErr dirErr : Nat)
deriving DecidableEq

structure MoveRun where
  status : MoveStatus
  store : Store

/-- Embedding of the `/move` handler's core: read the source fully,
write the buffer to the destination, then delete the source with the
tolerant procedure (file delete, directory delete as fallback).  If
both deletes fail the handler raises carrying the copy's success fact
(the destination it moved to) and both delete causes. -/
def move_file (st : Store) (share_name : String) (src dst : List Char)
    (fileDel dirDel : Except Nat Unit) : MoveRun :=
  match retrieveFile st share_name (full_smb_path src) with
  | none => ⟨.ReadFault, st⟩
  | some content =>
    let st1 := storeFile st share_name (full_smb_path dst) content
    match fileDel with
    | .ok _ =>
        ⟨.Success, removeEntry st1 share_name (full_smb_path src)⟩
    | .error fe =>
      match dirDel with
      | .ok _ =>
          ⟨.Success, removeEntry st1 share_name (full_smb_path src)⟩
      | .error de =>
          ⟨.PartialMoveFailure (full_smb_path dst) fe de, st1⟩

/-- The status a Move whose copy step succeeded must report, stated
from the delete outcomes alone: a `PartialMoveFailure` naming the
destination and carrying both delete causes exactly when both deletes
fail, plain success when the tolerant delete succeeds. -/
def moveStatusSpec (dst : List Char) (fileDel dirDel : Except Nat Unit) :
    MoveStatus :=
  match fileDel, dirDel with
  | .error fe, .error de => .PartialMoveFailure (full_smb_path dst) fe de
  | _, _ => .Success

/-- C3: for every Move whose copy step succeeds (the source reads back
`B`) onto a distinct destination path: if both the file-delete and the
directory-delete of the source fail, the operation reports a
`PartialMoveFailure` naming the destination the copy succeeded to and
carrying both delete causes; if the tolerant delete succeeds it reports
plain success; and in all these cases the destination really holds `B`
afterwards (the copy succeeded). -/
theorem move_partial_failure (st : Store) (share_name : String)
    (src dst : List Char) (fileDel dirDel : Except Nat Unit) (B : List Nat)
    (hsrc : retrieveFile st share_name (full_smb_path src) = some B)
    (hne : full_smb_path src ≠ full_smb_path dst) :
    (move_file st share_name src dst fileDel dirDel).status
        = moveStatusSpec dst fileDel dirDel
      ∧ retrieveFile (move_file st share_name src dst fileDel dirDel).store
          share_name (full_smb_path dst) = some B := by
  unfold move_file
  rw [hsrc]
  cases fileDel <;> cases dirDel <;>
    simp [moveStatusSpec, retrieveFile, removeEntry, storeFile, hne,
      Ne.symm hne]

/-- Witness for C3 at a concrete input: a share holding the file
`/a` with contents `[1, 2]`; moving it to `/b` with both delete
primitives failing (causes `4` and `6`) reports
`PartialMoveFailure "/b" 4 6`, and `/b` holds `[1, 2]`. -/
theorem move_partial_failure_witness :
    (move_file
        (fun _ p => if p = ['/', 'a'] then some (.file [1, 2]) else none)
        "public" ['a'] ['b'] (.error 4) (.error 6)).status
        = .PartialMoveFailure ['/', 'b'] 4 6
      ∧ retrieveFile
          (move_file
            (fun _ p => if p = ['/', 'a'] then some (.file [1, 2]) else none)
            "public" ['a'] ['b'] (.error 4) (.error 6)).store
          "public" (full_smb_path ['b']) = some [1, 2] :=
  move_partial_failure
    (fun _ p => if p = ['/', 'a'] then some (.file [1, 2]) else none)
    "public" ['a'] ['b'] (.error 4) (.error 6) [1, 2]
    (by decide) (by decide)

/-! ### `list_files` (app.py lines 145-188) -/

/-- A raw item of `conn.listPath(share_name, full_path)` (pysmb's
`SharedFile`): the fields the handler reads. -/
structure SharedFile where
  filename : List Char
  file_size : Nat
  isDirectory : Bool
  create_time : Int
  last_write_time : Int
  file_attributes : Nat
deriving DecidableEq

/-- One element of the handler's JSON response. -/
structure DirectoryEntry where
  name : List Char
  path : List Char
  size : Nat
  is_dir : Bool
  create_time : Int
  last_write_time : Int
  attributes : Nat
deriving DecidableEq

/-- POSIX `os.path.join(a, b)`: `b` if it is absolute, else `a` and `b`
joined with exactly one separator (none added when `a` is empty or
already ends in one). -/
def pathJoin (a b : List Char) : List Char :=
  if b.head? = some '/' then b
  else if a = [] then b
  else if a.getLast? = some '/' then a ++ b
  else a ++ '/' :: b

/-- Python `s.replace("\\", "/")`. -/
def replaceBackslash (s : List Char) : List Char :=
  s.map (fun c => if c = '\\' then '/' else c)

/-- The membership test `item.filename in [".", ".."]`. -/
def isDotEntry (name : List Char) : Bool :=
  decide (name = ['.']) || decide (name = ['.', '.'])

/-- The dictionary the handler appends for one kept item. -/
def toDirectoryEntry (path : List Char) (item : SharedFile) :
    DirectoryEntry where
  name := item.filename
  path := replaceBackslash (pathJoin path item.filename)
  size := item.file_size
  is_dir := item.isDirectory
  create_time := item.create_time
  last_write_time := item.last_write_time
  attributes := item.file_attributes

/-- Embedding of the `/list` handler's core: for each item of the
remote enumeration, skip it when its name is `"."` or `".."`, otherwise
map it to a response entry. -/
def list_files (path : List Char) (file_list : List SharedFile) :
    List DirectoryEntry :=
  (file_list.filter (fun item => !isDotEntry item.filename)).map
    (toDirectoryEntry path)

/-- C7: in every List result no entry is named `"."` or `".."`, and
every item of the remote enumeration other than those two is mapped
into the result. -/
theorem list_files_no_dot_entries (path : List Char)
    (file_list : List SharedFile) :
    (∀ e ∈ list_files path file_list,
        e.name ≠ ['.'] ∧ e.name ≠ ['.', '.'])
      ∧ ∀ item ∈ file_list, item.filename ≠ ['.'] →
          item.filename ≠ ['.', '.'] →
          toDirectoryEntry path item ∈ list_files path file_list := by
  constructor
  · intro e he
    simp only [list_files, List.mem_map, List.mem_filter, Bool.not_eq_eq_eq_not,
      Bool.not_true, isDotEntry, Bool.or_eq_false_iff,
      decide_eq_false_iff_not] at he
    obtain ⟨item, ⟨_, h1, h2⟩, rfl⟩ := he
    exact ⟨h1, h2⟩
  · intro item hmem h1 h2
    simp only [list_files, List.mem_map, List.mem_filter]
    exact ⟨item, ⟨hmem, by simp [isDotEntry, h1, h2]⟩, rfl⟩

/-- Witness for C7 at a concrete input: an enumeration holding `"."`,
`".."` and `"docs"`; the mapped `"docs"` entry is in the result (and by
the first conjunct, nothing named `"."` or `".."` is). -/
theorem list_files_no_dot_entries_witness :
    toDirectoryEntry ['/'] ⟨['d', 'o', 'c', 's'], 0, true, 0, 0, 16⟩
      ∈ list_files ['/']
          [⟨['.'], 0, true, 0, 0, 16⟩,
            ⟨['.', '.'], 0, true, 0, 0, 16⟩,
            ⟨['d', 'o', 'c', 's'], 0, true, 0, 0, 16⟩] :=
  (list_files_no_dot_entries ['/']
      [⟨['.'], 0, true, 0, 0, 16⟩,
        ⟨['.', '.'], 0, true, 0, 0, 16⟩,
        ⟨['d', 'o', 'c', 's'], 0, true, 0, 0, 16⟩]).2
    ⟨['d', 'o', 'c', 's'], 0, true, 0, 0, 16⟩
    (by simp) (by decide) (by decide)

end SMBToAPI
